import Mathlib

/-!
Verification of the streaming sign-language recognition pipeline
(`ml-service/app/services/streaming_recognition.py` and
`ml-service/app/services/onnx_inference.py`).

The Python classes are shallowly embedded: NumPy float arrays become lists of
rationals, the `deque(maxlen=window_size)` ring buffer becomes a list with an
explicit eviction step, mutable objects become explicit state records, and the
external collaborators (OpenCV decode, the MediaPipe extractor, the ONNX
session, NumPy's global random generator, wall-clock timestamps) become
explicit parameters of the embedded operations.
-/

namespace SilentTalk

/-- Feature frame: one hand-landmark matrix, nominally 21 rows of 3 rational
coordinates, as produced by the extractor or by the zero-padding policy. -/
abbrev Frame := List (List ℚ)

/-- Embedding of `np.zeros((21, 3), dtype=np.float32)` used by
`SlidingWindowBuffer.add_frame` when no landmarks were detected. -/
def zeroFrame : Frame := List.replicate 21 (List.replicate 3 (0 : ℚ))

/-- State of `SlidingWindowBuffer` (streaming_recognition.py, lines 20-78):
configuration, the `deque(maxlen=window_size)` contents, and `frame_count`. -/
structure SlidingWindowBuffer where
  window_size : Nat
  stride : Nat
  buffer : List Frame
  frame_count : Nat
deriving DecidableEq

namespace SlidingWindowBuffer

/-- Embedding of `SlidingWindowBuffer.__init__`: empty deque, zero counter. -/
def init (window_size stride : Nat) : SlidingWindowBuffer :=
  ⟨window_size, stride, [], 0⟩

/-- Embedding of `deque(maxlen=m).append(x)`: append on the right and drop
from the left whatever exceeds the capacity `m`. -/
def dequePush (maxlen : Nat) (buf : List Frame) (x : Frame) : List Frame :=
  let b := buf ++ [x]
  b.drop (b.length - maxlen)

/-- Embedding of `SlidingWindowBuffer.add_frame` (lines 41-63): `None`
landmarks are replaced by the zero frame, the frame is appended to the deque,
`frame_count` is incremented, and the readiness flag is
`len(buffer) == window_size and (frame_count - window_size) % stride == 0`
with Python integer semantics (the subtraction may be negative, and Python
`%` with a positive modulus agrees with `Int.emod`). -/
def add_frame (b : SlidingWindowBuffer) (landmarks : Option Frame) :
    SlidingWindowBuffer × Bool :=
  let lm := landmarks.getD zeroFrame
  let buf := dequePush b.window_size b.buffer lm
  let fc := b.frame_count + 1
  let is_ready := (buf.length == b.window_size) &&
    (((fc : Int) - (b.window_size : Int)) % (b.stride : Int) == 0)
  (⟨b.window_size, b.stride, buf, fc⟩, is_ready)

/-- Embedding of `SlidingWindowBuffer.get_sequence`: the window contents,
oldest first (an immutable copy in the source). -/
def get_sequence (b : SlidingWindowBuffer) : List Frame := b.buffer

/-- Embedding of `SlidingWindowBuffer.reset` (lines 74-78): clears the deque
and the counter, keeping the configuration. -/
def reset (b : SlidingWindowBuffer) : SlidingWindowBuffer :=
  ⟨b.window_size, b.stride, [], 0⟩

/-- Final buffer state after a sequence of `add_frame` calls. -/
def run (b : SlidingWindowBuffer) : List (Option Frame) → SlidingWindowBuffer
  | [] => b
  | f :: fs => ((b.add_frame f).1).run fs

/-- The readiness flags returned by a sequence of `add_frame` calls,
in call order. -/
def runFlags (b : SlidingWindowBuffer) : List (Option Frame) → List Bool
  | [] => []
  | f :: fs =>
      let p := b.add_frame f
      p.2 :: p.1.runFlags fs

@[simp] lemma add_frame_window_size (b : SlidingWindowBuffer) (f : Option Frame) :
    (b.add_frame f).1.window_size = b.window_size := rfl

@[simp] lemma add_frame_stride (b : SlidingWindowBuffer) (f : Option Frame) :
    (b.add_frame f).1.stride = b.stride := rfl

@[simp] lemma add_frame_frame_count (b : SlidingWindowBuffer) (f : Option Frame) :
    (b.add_frame f).1.frame_count = b.frame_count + 1 := rfl

lemma dequePush_length (maxlen : Nat) (buf : List Frame) (x : Frame) :
    (dequePush maxlen buf x).length = min (buf.length + 1) maxlen := by
  simp [dequePush]
  omega

lemma add_frame_buffer_length (b : SlidingWindowBuffer) (f : Option Frame) :
    (b.add_frame f).1.buffer.length = min (b.buffer.length + 1) b.window_size := by
  simp [add_frame, dequePush_length]

lemma int_sub_emod_zero_iff (m ws s : Nat) (h : ws ≤ m) :
    ((((m : Int) - (ws : Int)) % (s : Int)) = 0) ↔ ((m - ws) % s = 0) := by
  have hcast : ((m : Int) - (ws : Int)) = ((m - ws : Nat) : Int) := by
    omega
  rw [hcast, ← Int.natCast_mod]
  exact_mod_cast Int.natCast_eq_zero

/-- The readiness flag of the `n`-th `add_frame` call (0-indexed), starting
from any state whose buffer length is `min frame_count window_size`. -/
lemma runFlags_getD (fs : List (Option Frame)) (b : SlidingWindowBuffer) (n : Nat)
    (hinv : b.buffer.length = min b.frame_count b.window_size)
    (hn : n < fs.length) :
    (b.runFlags fs).getD n false =
      decide (b.window_size ≤ b.frame_count + n + 1 ∧
        (b.frame_count + n + 1 - b.window_size) % b.stride = 0) := by
  induction fs generalizing b n with
  | nil => simp at hn
  | cons f fs ih =>
    cases n with
    | zero =>
      show (b.add_frame f).2 = _
      rw [Bool.eq_iff_iff]
      simp only [add_frame, dequePush_length, beq_iff_eq, Bool.and_eq_true,
        decide_eq_true_eq]
      constructor
      · rintro ⟨hlen, hmod⟩
        rw [hinv] at hlen
        have hle : b.window_size ≤ b.frame_count + 0 + 1 := by omega
        refine ⟨hle, ?_⟩
        have := (int_sub_emod_zero_iff (b.frame_count + 1) b.window_size b.stride
          (by omega)).mp (by exact_mod_cast hmod)
        simpa using this
      · rintro ⟨hle, hmod⟩
        refine ⟨by omega, ?_⟩
        have := (int_sub_emod_zero_iff (b.frame_count + 1) b.window_size b.stride
          (by omega)).mpr (by simpa using hmod)
        exact_mod_cast this
    | succ n =>
      show ((b.add_frame f).1.runFlags fs).getD n false = _
      rw [ih (b.add_frame f).1 n]
      · simp only [add_frame_window_size, add_frame_stride, add_frame_frame_count]
        have harith : b.frame_count + 1 + n + 1 = b.frame_count + (n + 1) + 1 := by
          omega
        simp only [harith]
      · rw [add_frame_buffer_length, hinv]
        simp only [add_frame_window_size, add_frame_frame_count]
        omega
      · simpa using hn

end SlidingWindowBuffer

/-- C1: starting from a reset buffer with `1 ≤ stride ≤ window_size`, the
`n`-th `add_frame` call (1-indexed as call number `n + 1`) returns
`ready = true` exactly when `window_size ≤ n + 1` and
`(n + 1 - window_size) % stride = 0`, i.e. when the buffer holds
`window_size` frames and the frames-seen count is `window_size` plus a
multiple of `stride`. -/
theorem c1_sliding_window_readiness (ws s : Nat) (h1 : 1 ≤ s) (h2 : s ≤ ws)
    (fs : List (Option Frame)) (n : Nat) (hn : n < fs.length) :
    ((SlidingWindowBuffer.init ws s).runFlags fs).getD n false =
      decide (ws ≤ n + 1 ∧ (n + 1 - ws) % s = 0) := by
  have h := SlidingWindowBuffer.runFlags_getD fs (SlidingWindowBuffer.init ws s) n
    (by simp [SlidingWindowBuffer.init]) hn
  simpa [SlidingWindowBuffer.init] using h

/-- Witness for C1, at the spec's scenario A configuration
`window_size = 4, stride = 2`: of the first six calls exactly the fourth and
the sixth return `ready = true`. -/
theorem c1_sliding_window_readiness_witness :
    (1 ≤ 2 ∧ 2 ≤ 4 ∧ (3 : Nat) < (List.replicate 6 (none : Option Frame)).length) ∧
    ((SlidingWindowBuffer.init 4 2).runFlags (List.replicate 6 none)).getD 3 false =
      decide (4 ≤ 3 + 1 ∧ (3 + 1 - 4) % 2 = 0) ∧
    ((SlidingWindowBuffer.init 4 2).runFlags (List.replicate 6 none)).getD 4 false =
      decide (4 ≤ 4 + 1 ∧ (4 + 1 - 4) % 2 = 0) ∧
    ((SlidingWindowBuffer.init 4 2).runFlags (List.replicate 6 none)).getD 5 false =
      decide (4 ≤ 5 + 1 ∧ (5 + 1 - 4) % 2 = 0) ∧
    ((SlidingWindowBuffer.init 4 2).runFlags (List.replicate 6 none)).getD 1 false =
      decide (4 ≤ 1 + 1 ∧ (1 + 1 - 4) % 2 = 0) :=
  ⟨⟨by decide, by decide, by decide⟩,
   c1_sliding_window_readiness 4 2 (by decide) (by decide) (List.replicate 6 none) 3
     (by decide),
   c1_sliding_window_readiness 4 2 (by decide) (by decide) (List.replicate 6 none) 4
     (by decide),
   c1_sliding_window_readiness 4 2 (by decide) (by decide) (List.replicate 6 none) 5
     (by decide),
   c1_sliding_window_readiness 4 2 (by decide) (by decide) (List.replicate 6 none) 1
     (by decide)⟩

/-- C6: when `add_frame` is called with absent landmarks it appends the
zero-valued frame of the fixed 21×3 shape; `frame_count` increments on every
call regardless of detection, so it strictly increases, the readiness flag
does not depend on whether landmarks were detected, and only `reset` returns
the counter to zero. -/
theorem c6_zero_padding (b : SlidingWindowBuffer) (lm lm2 : Option Frame) :
    (b.add_frame none).1.buffer =
      SlidingWindowBuffer.dequePush b.window_size b.buffer zeroFrame ∧
    zeroFrame.length = 21 ∧
    (∀ row ∈ zeroFrame, row.length = 3) ∧
    (b.add_frame lm).1.frame_count = b.frame_count + 1 ∧
    b.frame_count < (b.add_frame lm).1.frame_count ∧
    (b.add_frame lm).2 = (b.add_frame lm2).2 ∧
    b.reset.frame_count = 0 := by
  refine ⟨rfl, by decide, ?_, rfl, by simp, ?_, rfl⟩
  · intro row hrow
    simp only [zeroFrame, List.mem_replicate] at hrow
    simp [hrow.2]
  · simp [SlidingWindowBuffer.add_frame, SlidingWindowBuffer.dequePush_length]

/-- Witness for C6 at a concrete buffer: the zero frame is appended on a
missed detection and each of its rows has length 3. -/
theorem c6_zero_padding_witness :
    (List.replicate 3 (0 : ℚ)) ∈ zeroFrame ∧
    ((SlidingWindowBuffer.init 4 2).add_frame none).1.buffer =
      SlidingWindowBuffer.dequePush 4 [] zeroFrame ∧
    (List.replicate 3 (0 : ℚ)).length = 3 :=
  ⟨by decide,
   (c6_zero_padding (SlidingWindowBuffer.init 4 2) none none).1,
   (c6_zero_padding (SlidingWindowBuffer.init 4 2) none none).2.2.1
     (List.replicate 3 0) (by decide)⟩

/-- C7: after any sequence of `add_frame` calls starting from a freshly
initialized buffer the deque never holds more than `window_size` frames, and
an `add_frame` on a full (nonempty) buffer evicts exactly the oldest frame:
the new contents are the old tail followed by the appended frame, and the
length stays `window_size`. -/
theorem c7_ring_invariant (ws s : Nat) (fs : List (Option Frame))
    (b : SlidingWindowBuffer) (hb : 0 < b.window_size)
    (hfull : b.buffer.length = b.window_size) (x : Option Frame) :
    ((SlidingWindowBuffer.init ws s).run fs).buffer.length ≤ ws ∧
    (b.add_frame x).1.buffer = b.buffer.tail ++ [x.getD zeroFrame] ∧
    (b.add_frame x).1.buffer.length = b.window_size := by
  refine ⟨?_, ?_, ?_⟩
  · have key : ∀ (gs : List (Option Frame)) (c : SlidingWindowBuffer),
        c.buffer.length ≤ c.window_size →
        (c.run gs).buffer.length ≤ c.window_size := by
      intro gs
      induction gs with
      | nil => intro c hc; exact hc
      | cons g gs ih =>
        intro c hc
        show (((c.add_frame g).1).run gs).buffer.length ≤ c.window_size
        have h1 := ih (c.add_frame g).1
          (by rw [SlidingWindowBuffer.add_frame_buffer_length]; simp)
        simpa using h1
    have h := key fs (SlidingWindowBuffer.init ws s) (by simp [SlidingWindowBuffer.init])
    simpa [SlidingWindowBuffer.init] using h
  · show SlidingWindowBuffer.dequePush b.window_size b.buffer (x.getD zeroFrame) =
      b.buffer.tail ++ [x.getD zeroFrame]
    simp only [SlidingWindowBuffer.dequePush, List.length_append, List.length_singleton,
      hfull]
    have hdrop : b.window_size + 1 - b.window_size = 1 := by omega
    rw [hdrop, List.drop_append_of_le_length (by omega), List.drop_one]
  · rw [SlidingWindowBuffer.add_frame_buffer_length, hfull]
    omega

/-- Witness for C7: a concrete full buffer of capacity 2 evicts its oldest
frame on the next append, and three pushes into a fresh capacity-2 buffer
leave at most 2 frames. -/
theorem c7_ring_invariant_witness :
    (0 < (SlidingWindowBuffer.mk 2 1 [zeroFrame, zeroFrame] 2).window_size ∧
     (SlidingWindowBuffer.mk 2 1 [zeroFrame, zeroFrame] 2).buffer.length =
       (SlidingWindowBuffer.mk 2 1 [zeroFrame, zeroFrame] 2).window_size) ∧
    (((SlidingWindowBuffer.init 2 1).run (List.replicate 3 none)).buffer.length ≤ 2 ∧
     ((SlidingWindowBuffer.mk 2 1 [zeroFrame, zeroFrame] 2).add_frame none).1.buffer =
       (SlidingWindowBuffer.mk 2 1 [zeroFrame, zeroFrame] 2).buffer.tail ++
         [(none : Option Frame).getD zeroFrame] ∧
     ((SlidingWindowBuffer.mk 2 1 [zeroFrame, zeroFrame] 2).add_frame none).1.buffer.length =
       (SlidingWindowBuffer.mk 2 1 [zeroFrame, zeroFrame] 2).window_size) :=
  ⟨⟨by decide, by decide⟩,
   c7_ring_invariant 2 1 (List.replicate 3 none)
     (SlidingWindowBuffer.mk 2 1 [zeroFrame, zeroFrame] 2) (by decide) (by decide) none⟩

/-- Value of the model output vector at class index `i`
(out-of-range reads, which cannot arise from `argsort` indices, default to 0). -/
def argVal (ps : List ℚ) (i : Nat) : ℚ := ps.getD i 0

/-- What `np.argsort` guarantees of its output for every sort kind: a
permutation of the indices `0, …, n-1` arranged in non-decreasing value
order. The default `quicksort` kind used by the code is not stable, so for
general inputs nothing may be assumed about the relative order of
equal-valued indices beyond this. -/
def IsArgsortOf (ps : List ℚ) (l : List Nat) : Prop :=
  l.Perm (List.range ps.length) ∧
  l.Pairwise fun i j => argVal ps i ≤ argVal ps j

instance (ps : List ℚ) (l : List Nat) : Decidable (IsArgsortOf ps l) := by
  unfold IsArgsortOf
  haveI : DecidableRel fun i j : Nat => argVal ps i ≤ argVal ps j := fun i j =>
    inferInstanceAs (Decidable (argVal ps i ≤ argVal ps j))
  infer_instance

/-- The ascending comparison of a stable argsort: index `i` comes before
index `j` when its value is smaller, ties broken by the original
(ascending) index order. This is a linear order on indices, so the stable
arrangement is unique. -/
def argLe (ps : List ℚ) (i j : Nat) : Prop :=
  argVal ps i < argVal ps j ∨ (argVal ps i = argVal ps j ∧ i ≤ j)

instance (ps : List ℚ) : DecidableRel (argLe ps) := fun i j =>
  inferInstanceAs (Decidable (argVal ps i < argVal ps j ∨
    (argVal ps i = argVal ps j ∧ i ≤ j)))

instance (ps : List ℚ) : IsTotal Nat (argLe ps) where
  total i j := by
    rcases lt_trichotomy (argVal ps i) (argVal ps j) with h | h | h
    · exact Or.inl (Or.inl h)
    · rcases Nat.le_total i j with hij | hij
      · exact Or.inl (Or.inr ⟨h, hij⟩)
      · exact Or.inr (Or.inr ⟨h.symm, hij⟩)
    · exact Or.inr (Or.inl h)

instance (ps : List ℚ) : IsTrans Nat (argLe ps) where
  trans i j k hij hjk := by
    rcases hij with h1 | ⟨h1, hi⟩ <;> rcases hjk with h2 | ⟨h2, hj⟩
    · exact Or.inl (h1.trans h2)
    · exact Or.inl (h2 ▸ h1)
    · exact Or.inl (h1 ▸ h2)
    · exact Or.inr ⟨h1.trans h2, hi.trans hj⟩

/-- The stable ascending argsort. NumPy's default introsort is not stable
in general, but for arrays shorter than its insertion-sort cutoff (16
elements) it runs a plain insertion sort, which is stable — so on such
small inputs, including every concrete input used in this file,
`np.argsort` returns exactly this list. General theorems below do not use
this definition; they assume only `IsArgsortOf` of the sort output. -/
def argsortStable (ps : List ℚ) : List Nat :=
  List.insertionSort (argLe ps) (List.range ps.length)

/-- Embedding of the Python slice `l[-k:]`: the last `k` elements, except
that `k = 0` (since `-0 == 0`) yields the whole list. -/
def pyTailSlice (k : Nat) (l : List Nat) : List Nat :=
  if k = 0 then l else l.drop (l.length - k)

/-- Embedding of `argsorted[-top_k:][::-1]` applied to an `np.argsort`
output, the ranking used by both `ONNXInferenceEngine.predict` and
`MockInferenceEngine.predict`. -/
def rankTopK (sortedIdx : List Nat) (k : Nat) : List Nat :=
  (pyTailSlice k sortedIdx).reverse

/-- Embedding of `class_names[idx] if idx < len(class_names) else
f"class_{idx}"` (MockInferenceEngine.predict line 343; the real engine's
`class_names[idx] if self.class_names else f"class_{idx}"` agrees on every
in-range index, which is the only case its callers reach). -/
def classNameAt (ns : List String) (i : Nat) : String :=
  ns.getD i ("class_" ++ toString i)

/-- Embedding of the result-formatting loop shared by lines 147-154 and
336-344 of onnx_inference.py: the ranked indices taken from the given
`np.argsort` output, paired with their class name and probability. -/
def formatTopK (classNames : Option (List String)) (ps : List ℚ)
    (sortedIdx : List Nat) (k : Nat) : List (Nat × String × ℚ) :=
  (rankTopK sortedIdx k).map fun i =>
    (i, (match classNames with
         | some ns => classNameAt ns i
         | none => "class_" ++ toString i), argVal ps i)

/-- Embedding of the pure part of `ONNXInferenceEngine.predict`
(lines 146-159): the ONNX session's output probability vector `ps` and the
NumPy library sort `argsortFn` (any function whose outputs satisfy
`IsArgsortOf`; the default quicksort kind fixes no tie order) are external
inputs; the function ranks the `top_k` highest entries. -/
def ONNXInferenceEngine.predictResults (argsortFn : List ℚ → List Nat)
    (classNames : Option (List String)) (ps : List ℚ) (k : Nat) :
    List (Nat × String × ℚ) :=
  formatTopK classNames ps (argsortFn ps) k

/-- Embedding of Python `int(q)`: truncation toward zero. -/
def pyTrunc (q : ℚ) : Int := if 0 ≤ q then ⌊q⌋ else -⌊-q⌋

/-- Sum of one landmark frame, as in `landmarks_sequence.sum()`. -/
def frameSum (f : Frame) : ℚ := (f.map fun row => row.sum).sum

/-- Sum of the whole window, as in `landmarks_sequence.sum()`. -/
def windowSum (w : List Frame) : ℚ := (w.map frameSum).sum

/-- Embedding of `int(landmarks_sequence.sum() * 1000) % 1000`
(MockInferenceEngine.predict line 333); Python `%` with positive modulus
yields a value in `[0, 1000)`, matching `Int.emod`. -/
def pySeed (w : List Frame) : Nat :=
  ((pyTrunc (windowSum w * 1000)) % 1000).toNat

/-- State of `MockInferenceEngine`: its class-name list (defaulting to the
letters A-Z as in `__init__`, line 314). -/
structure MockInferenceEngine where
  class_names : List String
deriving DecidableEq

/-- Embedding of `MockInferenceEngine.__init__`. -/
def MockInferenceEngine.init (classNames : Option (List String)) : MockInferenceEngine :=
  ⟨classNames.getD ((List.range 26).map fun i => Char.toString (Char.ofNat (65 + i)))⟩

/-- Embedding of `MockInferenceEngine.predict` (lines 319-352). NumPy's
global generator is modelled by an explicit state `σ : Nat`; `np.random.seed`
replaces that state by the computed seed, and the two draws
(`np.random.dirichlet`, `np.random.rand`) are explicit deterministic
functions of the generator state threaded through the call. `argsortFn` is
the external NumPy sort, as in the real engine. The returned triple is
(predictions, mock latency, final generator state). -/
def MockInferenceEngine.predict (argsortFn : List ℚ → List Nat)
    (dirichlet : Nat → Nat → List ℚ × Nat) (rand : Nat → ℚ × Nat)
    (e : MockInferenceEngine) (σ : Nat) (w : List Frame) (top_k : Nat) :
    List (Nat × String × ℚ) × ℚ × Nat :=
  let σ1 := pySeed w
  let d := dirichlet σ1 e.class_names.length
  let predictions := d.1
  let results := (rankTopK (argsortFn predictions) top_k).map fun i =>
    (i, classNameAt e.class_names i, argVal predictions i)
  let r := rand d.2
  let mock_time := 25 + r.1 * 20
  (results, mock_time, r.2)

lemma pyTailSlice_sublist (k : Nat) (l : List Nat) :
    List.Sublist (pyTailSlice k l) l := by
  unfold pyTailSlice
  split
  · exact List.Sublist.refl l
  · exact List.drop_sublist _ _

/-- Any ranking built by reversing a tail slice of a value-ascending
argsort output is non-increasing in value. Only `IsArgsortOf` — what
`np.argsort` guarantees for every sort kind — is assumed of the output; no
tie order is used. -/
lemma rankTopK_pairwise (ps : List ℚ) (l : List Nat) (k : Nat)
    (h : IsArgsortOf ps l) :
    (rankTopK l k).Pairwise fun i j => argVal ps j ≤ argVal ps i := by
  unfold rankTopK
  rw [List.pairwise_reverse]
  exact List.Pairwise.sublist (pyTailSlice_sublist k l) h.2

lemma formatTopK_pairwise (classNames : Option (List String)) (ps : List ℚ)
    (l : List Nat) (k : Nat) (h : IsArgsortOf ps l) :
    (formatTopK classNames ps l k).Pairwise fun a b => b.2.2 ≤ a.2.2 := by
  unfold formatTopK
  rw [List.pairwise_map]
  refine (rankTopK_pairwise ps l k h).imp ?_
  intro i j hij
  dsimp only
  exact hij

lemma mock_predict_results (argsortFn : List ℚ → List Nat)
    (dirichlet : Nat → Nat → List ℚ × Nat) (rand : Nat → ℚ × Nat)
    (e : MockInferenceEngine) (σ : Nat) (w : List Frame) (top_k : Nat) :
    (e.predict argsortFn dirichlet rand σ w top_k).1 =
      formatTopK (some e.class_names)
        (dirichlet (pySeed w) e.class_names.length).1
        (argsortFn (dirichlet (pySeed w) e.class_names.length).1) top_k := rfl

/-- C4 (amended): for every output NumPy's argsort may produce — any
value-ascending permutation of the indices, since the default quicksort
kind fixes no tie order — both backends' candidate lists are ordered
non-increasing in confidence. No universal tie order holds; in particular
the claimed ascending order among equal-confidence candidates fails at the
concrete counterexample, where NumPy's small-array insertion-sort path is
stable and the code's reversal puts the tie in descending index order. -/
theorem c4_ranking_order (argsortFn : List ℚ → List Nat)
    (classNames : Option (List String)) (ps : List ℚ) (k : Nat)
    (dirichlet : Nat → Nat → List ℚ × Nat) (rand : Nat → ℚ × Nat)
    (e : MockInferenceEngine) (σ : Nat) (w : List Frame)
    (hreal : IsArgsortOf ps (argsortFn ps))
    (hmock : IsArgsortOf (dirichlet (pySeed w) e.class_names.length).1
      (argsortFn (dirichlet (pySeed w) e.class_names.length).1)) :
    ((ONNXInferenceEngine.predictResults argsortFn classNames ps k).Pairwise
       fun a b => b.2.2 ≤ a.2.2) ∧
    ((e.predict argsortFn dirichlet rand σ w k).1.Pairwise
       fun a b => b.2.2 ≤ a.2.2) := by
  constructor
  · exact formatTopK_pairwise classNames ps (argsortFn ps) k hreal
  · rw [mock_predict_results]
    exact formatTopK_pairwise _ _ _ k hmock

/-- Witness for C4 at a concrete admissible sort output: the stable sort of
`[3, 7]` satisfies `IsArgsortOf`, and both backends' outputs on it are
non-increasing in confidence. -/
theorem c4_ranking_order_witness :
    (IsArgsortOf [3, 7] (argsortStable [3, 7]) ∧
     IsArgsortOf [3, 7] (argsortStable [3, 7])) ∧
    ((ONNXInferenceEngine.predictResults argsortStable (some ["A", "B"])
        [3, 7] 2).Pairwise fun a b => b.2.2 ≤ a.2.2) ∧
    (((MockInferenceEngine.init (some ["A", "B"])).predict argsortStable
        (fun _ _ => ([3, 7], 0)) (fun s => (0, s)) 0 [] 2).1.Pairwise
       fun a b => b.2.2 ≤ a.2.2) :=
  ⟨⟨by decide, by decide⟩,
   c4_ranking_order argsortStable (some ["A", "B"]) [3, 7] 2
     (fun _ _ => ([3, 7], 0)) (fun s => (0, s))
     (MockInferenceEngine.init (some ["A", "B"])) 0 [] (by decide) (by decide)⟩

/-- Counterexample to C4 as stated: on the two-element probability vector
`[1/2, 1/2]` with `top_k = 2`, NumPy's argsort takes its small-array
insertion-sort path, whose stable output `[0, 1]` is an admissible argsort
result; reversing it, the real backend returns class 1 before class 0 at
equal confidence, so equal-confidence candidates appear in descending, not
ascending, class-index order. -/
theorem c4_ties_counterexample :
    IsArgsortOf [1/2, 1/2] (argsortStable [1/2, 1/2]) ∧
    ONNXInferenceEngine.predictResults argsortStable (some ["A", "B"])
      [1/2, 1/2] 2 = [(1, "B", 1/2), (0, "A", 1/2)] ∧
    ¬ (ONNXInferenceEngine.predictResults argsortStable (some ["A", "B"])
        [1/2, 1/2] 2).Pairwise (fun a b => a.2.2 = b.2.2 → a.1 ≤ b.1) := by
  have hsort : argsortStable [1/2, 1/2] = [0, 1] := by
    norm_num [argsortStable, argVal, argLe, List.insertionSort,
      List.orderedInsert, List.range_succ]
  have h : ONNXInferenceEngine.predictResults argsortStable (some ["A", "B"])
      [1/2, 1/2] 2 = [(1, "B", 1/2), (0, "A", 1/2)] := by
    rw [ONNXInferenceEngine.predictResults, hsort]
    norm_num [formatTopK, rankTopK, pyTailSlice, argVal, classNameAt]
  refine ⟨⟨?_, ?_⟩, h, ?_⟩
  · rw [hsort]
    decide
  · rw [hsort]
    norm_num [argVal]
  · rw [h]
    intro hp
    have hrel := (List.pairwise_cons.mp hp).1 (0, "A", 1/2) (by simp)
    exact absurd (hrel rfl) (by norm_num)

/-- C5: the fallback (mock) backend is a deterministic function of the
window's content: the result is independent of the incoming global
random-generator state, because `predict` reseeds the generator from the
window's content; hence two calls with identical window and `top_k` return
identical predictions (and identical mock latency). -/
theorem c5_mock_determinism (argsortFn : List ℚ → List Nat)
    (dirichlet : Nat → Nat → List ℚ × Nat) (rand : Nat → ℚ × Nat)
    (e : MockInferenceEngine) (w : List Frame) (top_k : Nat) (σ σ2 : Nat) :
    e.predict argsortFn dirichlet rand σ w top_k =
      e.predict argsortFn dirichlet rand σ2 w top_k := rfl

/-- A JSON-able value, mirroring the Python dicts the service returns. -/
inductive JVal where
  | jnull : JVal
  | jstr : String → JVal
  | jnum : ℚ → JVal
  | jbool : Bool → JVal
  | jpreds : List (Nat × String × ℚ) → JVal
deriving DecidableEq

/-- A Python dict with string keys, in insertion order. -/
abbrev JDict := List (String × JVal)

/-- Mean of a list of samples, as in `np.mean` (callers guard emptiness). -/
def listMean (l : List ℚ) : ℚ := l.sum / l.length

/-- The samples in ascending order. -/
def sortedAsc (l : List ℚ) : List ℚ := List.insertionSort (· ≤ ·) l

/-- Embedding of `np.median`: middle element of the sorted samples, or the
mean of the two middle elements for an even count. -/
def listMedian (l : List ℚ) : ℚ :=
  let s := sortedAsc l
  let n := s.length
  if n = 0 then 0
  else if n % 2 = 1 then s.getD (n / 2) 0
  else (s.getD (n / 2 - 1) 0 + s.getD (n / 2) 0) / 2

/-- Embedding of `np.min` on a nonempty list (0 on empty, a guarded case). -/
def listMin (l : List ℚ) : ℚ :=
  match l with
  | [] => 0
  | x :: xs => xs.foldl min x

/-- Embedding of `np.max` on a nonempty list (0 on empty, a guarded case). -/
def listMax (l : List ℚ) : ℚ :=
  match l with
  | [] => 0
  | x :: xs => xs.foldl max x

/-- Embedding of `np.percentile(l, p)` with the default linear-interpolation
method: position `p/100 * (n-1)` in the sorted samples, interpolating
between the neighbouring samples. -/
def percentile (p : ℚ) (l : List ℚ) : ℚ :=
  let s := sortedAsc l
  let n := s.length
  if n = 0 then 0
  else
    let pos : ℚ := p / 100 * ((n : ℚ) - 1)
    let i : Nat := (⌊pos⌋).toNat
    let lo := s.getD i 0
    let hi := s.getD (min (i + 1) (n - 1)) 0
    lo + (pos - ⌊pos⌋) * (hi - lo)

/-- Embedding of `ONNXInferenceEngine.get_performance_stats`
(onnx_inference.py lines 212-240), as a function of the recorded
`inference_times` list: all-zero fields with count 0 when no samples were
recorded, otherwise mean/median/min/max/p95/p99 of the samples. -/
def ONNXInferenceEngine.get_performance_stats (inference_times : List ℚ) : JDict :=
  if inference_times = [] then
    [("mean_ms", .jnum 0), ("median_ms", .jnum 0), ("min_ms", .jnum 0),
     ("max_ms", .jnum 0), ("p95_ms", .jnum 0), ("p99_ms", .jnum 0),
     ("total_inferences", .jnum 0)]
  else
    [("mean_ms", .jnum (listMean inference_times)),
     ("median_ms", .jnum (listMedian inference_times)),
     ("min_ms", .jnum (listMin inference_times)),
     ("max_ms", .jnum (listMax inference_times)),
     ("p95_ms", .jnum (percentile 95 inference_times)),
     ("p99_ms", .jnum (percentile 99 inference_times)),
     ("total_inferences", .jnum inference_times.length)]

/-- State of `StreamingRecognitionService` (streaming_recognition.py,
lines 160-368): configuration, the owned sliding-window buffer, the recorded
inference times, and the session fields. The extractor, lighting normalizer
and inference engine are external collaborators modelled as parameters of
`process_frame`. -/
structure StreamingRecognitionService where
  window_size : Nat
  stride : Nat
  fps_target : Nat
  min_confidence : ℚ
  preprocess_lighting : Bool
  buffer : SlidingWindowBuffer
  inference_times : List ℚ
  session_id : Option String
  is_active : Bool
deriving DecidableEq

namespace StreamingRecognitionService

/-- Embedding of `StreamingRecognitionService.__init__` (lines 166-209). -/
def init (window_size stride fps_target : Nat) (min_confidence : ℚ)
    (preprocess_lighting : Bool) : StreamingRecognitionService :=
  { window_size := window_size
    stride := stride
    fps_target := fps_target
    min_confidence := min_confidence
    preprocess_lighting := preprocess_lighting
    buffer := SlidingWindowBuffer.init window_size stride
    inference_times := []
    session_id := none
    is_active := false }

/-- Outcome of one `engine.predict` call inside `_run_inference`: either the
(predictions, inference_time) pair, or a raised exception with its message. -/
inductive InferOutcome where
  | ok : List (Nat × String × ℚ) → ℚ → InferOutcome
  | exc : String → InferOutcome
deriving DecidableEq

/-- Embedding of `StreamingRecognitionService._run_inference`
(lines 259-321). On success it filters the candidates by
`conf >= min_confidence`, takes the head of the filtered list as top
prediction, builds the result dict and appends the latency sample; if the
engine raised, the `except` branch builds the four-field error dict and
leaves the state untouched. The timestamp string is an external input. -/
def run_inference (st : StreamingRecognitionService) (inf : InferOutcome)
    (ts : String) (handedness : String) :
    StreamingRecognitionService × JDict :=
  match inf with
  | .ok predictions inference_time =>
      let filtered_predictions :=
        predictions.filter fun p => st.min_confidence ≤ p.2.2
      let top_prediction := filtered_predictions.head?
      let result : JDict :=
        [("sign", match top_prediction with
                  | some p => .jstr p.2.1
                  | none => .jnull),
         ("confidence", .jnum (match top_prediction with
                               | some p => p.2.2
                               | none => 0)),
         ("timestamp", .jstr ts),
         ("inference_time_ms", .jnum inference_time),
         ("handedness", .jstr handedness),
         ("all_predictions", .jpreds filtered_predictions),
         ("landmarks_detected", .jbool true)]
      ({st with inference_times := st.inference_times ++ [inference_time]}, result)
  | .exc msg =>
      (st, [("sign", .jnull), ("confidence", .jnum 0), ("timestamp", .jstr ts),
            ("error", .jstr msg)])

/-- Outcome of the decode-preprocess-extract prefix of `process_frame`: the
decode may fail (`cv2.imdecode` returns `None`), the extractor may raise
(caught by the surrounding `try`), report no detection, or return landmarks
with a handedness label. -/
inductive ExtOutcome where
  | raised : String → ExtOutcome
  | no_detection : ExtOutcome
  | detected : Frame → String → ExtOutcome
deriving DecidableEq

/-- Embedding of `StreamingRecognitionService.process_frame`
(lines 211-257). `decode_ok` is whether `cv2.imdecode` produced a frame,
`ext` the extractor outcome, `inf` the engine outcome used if the window is
ready, `ts` the timestamp. Decode failure and a raised extractor exception
return `None` without touching the buffer; otherwise the frame (or `None`
landmarks) goes through `add_frame` and, when ready, `_run_inference`. -/
def process_frame (st : StreamingRecognitionService) (decode_ok : Bool)
    (ext : ExtOutcome) (inf : InferOutcome) (ts : String) :
    StreamingRecognitionService × Option JDict :=
  if decode_ok = false then (st, none)
  else
    match ext with
    | .raised _ => (st, none)
    | .no_detection =>
        let p := st.buffer.add_frame none
        let st1 := {st with buffer := p.1}
        if p.2 then
          let r := run_inference st1 inf ts "Unknown"
          (r.1, some r.2)
        else (st1, none)
    | .detected lm handedness =>
        let p := st.buffer.add_frame (some lm)
        let st1 := {st with buffer := p.1}
        if p.2 then
          let r := run_inference st1 inf ts handedness
          (r.1, some r.2)
        else (st1, none)

/-- Embedding of `start_session` (lines 323-328): records the id, sets the
active flag, and resets the buffer. Nothing else is touched. -/
def start_session (st : StreamingRecognitionService) (sid : String) :
    StreamingRecognitionService :=
  {st with session_id := some sid, is_active := true, buffer := st.buffer.reset}

/-- Embedding of `stop_session` (lines 330-339): clears the active flag and
logs; no other field changes. -/
def stop_session (st : StreamingRecognitionService) : StreamingRecognitionService :=
  {st with is_active := false}

/-- Embedding of `StreamingRecognitionService.get_performance_stats`
(lines 341-363). -/
def get_performance_stats (st : StreamingRecognitionService) : JDict :=
  if st.inference_times = [] then
    [("avg_inference_ms", .jnum 0), ("total_inferences", .jnum 0),
     ("target_fps", .jnum st.fps_target)]
  else
    [("avg_inference_ms", .jnum (listMean st.inference_times)),
     ("median_inference_ms", .jnum (listMedian st.inference_times)),
     ("min_inference_ms", .jnum (listMin st.inference_times)),
     ("max_inference_ms", .jnum (listMax st.inference_times)),
     ("total_inferences", .jnum st.inference_times.length),
     ("target_fps", .jnum st.fps_target),
     ("actual_fps", .jnum ((st.inference_times.length : ℚ) /
        ((st.inference_times.length : ℚ) / (st.fps_target : ℚ))))]

end StreamingRecognitionService

/-- C2 (amended): `stop_session` only clears the active flag and is
idempotent; `process_frame` never inspects the session state, so a call
after `stop_session` is processed exactly as before stopping (same returned
result, same state evolution apart from the cleared flag). No
`SessionClosed` failure exists in the code. -/
theorem c2_stop_session_no_gate (st : StreamingRecognitionService) (dec : Bool)
    (ext : StreamingRecognitionService.ExtOutcome)
    (inf : StreamingRecognitionService.InferOutcome) (ts : String) :
    st.stop_session.is_active = false ∧
    st.stop_session.stop_session = st.stop_session ∧
    st.stop_session.process_frame dec ext inf ts =
      (((st.process_frame dec ext inf ts).1).stop_session,
       (st.process_frame dec ext inf ts).2) := by
  refine ⟨rfl, rfl, ?_⟩
  cases dec with
  | false => rfl
  | true =>
    cases ext with
    | raised msg => rfl
    | no_detection =>
      cases hb : (st.buffer.add_frame none).2 <;> cases inf <;> cases st <;>
        simp [StreamingRecognitionService.process_frame,
          StreamingRecognitionService.stop_session,
          StreamingRecognitionService.run_inference, hb]
    | detected lm handed =>
      cases hb : (st.buffer.add_frame (some lm)).2 <;> cases inf <;> cases st <;>
        simp [StreamingRecognitionService.process_frame,
          StreamingRecognitionService.stop_session,
          StreamingRecognitionService.run_inference, hb]

/-- Counterexample to C2 as stated: with `window_size = stride = 1`, after
`start_session` then `stop_session`, a further `process_frame` call does not
fail — it still appends to the buffer (`frame_count` goes from 0 to 1) and
even produces a recognition result. -/
theorem c2_session_closed_counterexample :
    (((StreamingRecognitionService.init 1 1 30 0 true).start_session
        "s").stop_session).is_active = false ∧
    ((((StreamingRecognitionService.init 1 1 30 0 true).start_session
        "s").stop_session).process_frame true .no_detection
        (.ok [(0, "A", 1)] 5) "ts").2.isSome = true ∧
    ((((StreamingRecognitionService.init 1 1 30 0 true).start_session
        "s").stop_session).process_frame true .no_detection
        (.ok [(0, "A", 1)] 5) "ts").1.buffer.frame_count = 1 ∧
    (((StreamingRecognitionService.init 1 1 30 0 true).start_session
        "s").stop_session).buffer.frame_count = 0 := by
  refine ⟨rfl, ?_, ?_, rfl⟩ <;> decide

/-- C9 (amended): `start_session` records the session id, sets the active
flag, and resets the window buffer to empty with `frame_count = 0`; it does
not touch the latency tracker, whose previously recorded samples survive. -/
theorem c9_start_session_resets_buffer_only (st : StreamingRecognitionService)
    (sid : String) :
    st.start_session sid =
      {st with session_id := some sid, is_active := true,
               buffer := st.buffer.reset} ∧
    (st.start_session sid).buffer.buffer = [] ∧
    (st.start_session sid).buffer.frame_count = 0 ∧
    (st.start_session sid).is_active = true ∧
    (st.start_session sid).session_id = some sid ∧
    (st.start_session sid).inference_times = st.inference_times :=
  ⟨rfl, rfl, rfl, rfl, rfl, rfl⟩

/-- Counterexample to C9 as stated: starting a session on a service that has
one recorded latency sample leaves that sample in place — the latency
tracker is not reset to zero samples. -/
theorem c9_tracker_not_reset_counterexample :
    (({StreamingRecognitionService.init 30 10 30 0 true with
        inference_times := [5]}).start_session "s").inference_times = [5] ∧
    ([5] : List ℚ) ≠ [] :=
  ⟨rfl, by decide⟩

/-- C8 (amended): on zero recorded samples the engine summary returns the
six fields mean/median/min/max/p95/p99 all zero with count 0, while the
streaming-service summary returns only an all-zero average, count 0 and the
FPS target — it has no median/min/max/p95/p99 fields; neither computation
can raise or divide by zero on the empty case. -/
theorem c8_empty_tracker_summary (st : StreamingRecognitionService)
    (h : st.inference_times = []) :
    ONNXInferenceEngine.get_performance_stats [] =
      [("mean_ms", .jnum 0), ("median_ms", .jnum 0), ("min_ms", .jnum 0),
       ("max_ms", .jnum 0), ("p95_ms", .jnum 0), ("p99_ms", .jnum 0),
       ("total_inferences", .jnum 0)] ∧
    st.get_performance_stats =
      [("avg_inference_ms", .jnum 0), ("total_inferences", .jnum 0),
       ("target_fps", .jnum st.fps_target)] := by
  refine ⟨rfl, ?_⟩
  unfold StreamingRecognitionService.get_performance_stats
  simp [h]

/-- Witness for C8 on a freshly initialized service, which has an empty
latency tracker. -/
theorem c8_empty_tracker_summary_witness :
    (StreamingRecognitionService.init 30 10 30 0 true).inference_times = [] ∧
    (ONNXInferenceEngine.get_performance_stats [] =
      [("mean_ms", .jnum 0), ("median_ms", .jnum 0), ("min_ms", .jnum 0),
       ("max_ms", .jnum 0), ("p95_ms", .jnum 0), ("p99_ms", .jnum 0),
       ("total_inferences", .jnum 0)] ∧
    (StreamingRecognitionService.init 30 10 30 0 true).get_performance_stats =
      [("avg_inference_ms", .jnum 0), ("total_inferences", .jnum 0),
       ("target_fps", .jnum (StreamingRecognitionService.init 30 10 30 0
          true).fps_target)]) :=
  ⟨rfl, c8_empty_tracker_summary (StreamingRecognitionService.init 30 10 30 0 true) rfl⟩

/-- Counterexample to C8 as stated: the streaming service's own summary on
zero samples has no mean/median/min/max/p95/p99 fields at all — its keys are
exactly avg_inference_ms, total_inferences, target_fps — so it does not
return a record whose six statistics fields are all zero. -/
theorem c8_missing_fields_counterexample :
    (StreamingRecognitionService.init 30 10 30 0 true).get_performance_stats.map
        Prod.fst = ["avg_inference_ms", "total_inferences", "target_fps"] ∧
    (StreamingRecognitionService.init 30 10 30 0
        true).get_performance_stats.lookup "mean_ms" = none ∧
    (StreamingRecognitionService.init 30 10 30 0
        true).get_performance_stats.lookup "median_ms" = none ∧
    (StreamingRecognitionService.init 30 10 30 0
        true).get_performance_stats.lookup "min_ms" = none ∧
    (StreamingRecognitionService.init 30 10 30 0
        true).get_performance_stats.lookup "max_ms" = none ∧
    (StreamingRecognitionService.init 30 10 30 0
        true).get_performance_stats.lookup "p95_ms" = none ∧
    (StreamingRecognitionService.init 30 10 30 0
        true).get_performance_stats.lookup "p99_ms" = none := by
  refine ⟨?_, ?_, ?_, ?_, ?_, ?_, ?_⟩ <;> decide

/-- C3 (amended): candidates with confidence strictly below `min_confidence`
are excluded entirely from the emitted candidate list; when filtering leaves
nothing, the result reports the top sign as absent (`null`) with confidence
exactly 0 while the latency and handedness fields are still populated — but
the result carries no backend-status field: its keys are exactly sign,
confidence, timestamp, inference_time_ms, handedness, all_predictions,
landmarks_detected. -/
theorem c3_confidence_filter (st : StreamingRecognitionService)
    (predictions : List (Nat × String × ℚ)) (t : ℚ) (ts handed : String) :
    (st.run_inference (.ok predictions t) ts handed).2.map Prod.fst =
      ["sign", "confidence", "timestamp", "inference_time_ms", "handedness",
       "all_predictions", "landmarks_detected"] ∧
    (st.run_inference (.ok predictions t) ts handed).2.lookup "all_predictions" =
      some (.jpreds (predictions.filter fun p => st.min_confidence ≤ p.2.2)) ∧
    (∀ p ∈ predictions, p.2.2 < st.min_confidence →
      p ∉ predictions.filter fun p => st.min_confidence ≤ p.2.2) ∧
    ((predictions.filter fun p => st.min_confidence ≤ p.2.2) = [] →
      (st.run_inference (.ok predictions t) ts handed).2.lookup "sign" =
        some .jnull ∧
      (st.run_inference (.ok predictions t) ts handed).2.lookup "confidence" =
        some (.jnum 0)) ∧
    (st.run_inference (.ok predictions t) ts handed).2.lookup "inference_time_ms" =
      some (.jnum t) ∧
    (st.run_inference (.ok predictions t) ts handed).2.lookup "handedness" =
      some (.jstr handed) ∧
    (st.run_inference (.ok predictions t) ts handed).2.lookup "backend_status" =
      none := by
  refine ⟨rfl, rfl, ?_, ?_, rfl, rfl, rfl⟩
  · intro p hp hlt hmem
    rw [List.mem_filter] at hmem
    have hle : st.min_confidence ≤ p.2.2 := by simpa using hmem.2
    exact absurd hle (not_le.mpr hlt)
  · intro hempty
    constructor <;>
      · simp only [StreamingRecognitionService.run_inference, hempty]
        rfl

/-- Witness for C3: with threshold 1 the single candidate of confidence 0 is
filtered out and the result reports a null sign with confidence 0. -/
theorem c3_confidence_filter_witness :
    ([((0 : Nat), "A", (0 : ℚ))].filter
       (fun p => (StreamingRecognitionService.init 30 10 30 1 true).min_confidence ≤
         p.2.2) = []) ∧
    (((StreamingRecognitionService.init 30 10 30 1 true).run_inference
        (.ok [(0, "A", 0)] 5) "ts" "Right").2.lookup "sign" = some .jnull ∧
     ((StreamingRecognitionService.init 30 10 30 1 true).run_inference
        (.ok [(0, "A", 0)] 5) "ts" "Right").2.lookup "confidence" =
       some (.jnum 0)) :=
  ⟨by decide,
   (c3_confidence_filter (StreamingRecognitionService.init 30 10 30 1 true)
      [(0, "A", 0)] 5 "ts" "Right").2.2.2.1 (by decide)⟩

/-- Counterexample to C3 as stated: a result built by `_run_inference`
carries no backend-status field at all — looking the field up fails — so the
claim that filtering an empty candidate list still populates a
backend-status field is false of the code. -/
theorem c3_backend_status_counterexample :
    (((StreamingRecognitionService.init 30 10 30 1 true).run_inference
        (.ok [(0, "A", 0)] 5) "ts" "Right").2.lookup "sign" = some .jnull) ∧
    (((StreamingRecognitionService.init 30 10 30 1 true).run_inference
        (.ok [(0, "A", 0)] 5) "ts" "Right").2.lookup "confidence" =
      some (.jnum 0)) ∧
    (((StreamingRecognitionService.init 30 10 30 1 true).run_inference
        (.ok [(0, "A", 0)] 5) "ts" "Right").2.lookup "inference_time_ms" =
      some (.jnum 5)) ∧
    (((StreamingRecognitionService.init 30 10 30 1 true).run_inference
        (.ok [(0, "A", 0)] 5) "ts" "Right").2.map Prod.fst =
      ["sign", "confidence", "timestamp", "inference_time_ms", "handedness",
       "all_predictions", "landmarks_detected"]) ∧
    (((StreamingRecognitionService.init 30 10 30 1 true).run_inference
        (.ok [(0, "A", 0)] 5) "ts" "Right").2.lookup "backend_status" = none) := by
  refine ⟨?_, ?_, ?_, ?_, ?_⟩ <;> decide

/-- C10: `process_frame` is total at its interface. A decode failure or an
exception raised before the buffer step returns the absent result `None`
with the state untouched; an exception raised by the inference backend on a
ready window returns a result dict carrying an `error` field instead of
propagating; and every produced result dict has one of the two expected
shapes (the recognition shape or the error shape) — no call propagates an
exception. -/
theorem c10_process_frame_total (st : StreamingRecognitionService) (dec : Bool)
    (ext : StreamingRecognitionService.ExtOutcome)
    (inf : StreamingRecognitionService.InferOutcome) (ts : String) :
    (st.process_frame false ext inf ts = (st, none)) ∧
    (∀ msg, st.process_frame true (.raised msg) inf ts = (st, none)) ∧
    (∀ msg lm handed, (st.buffer.add_frame (some lm)).2 = true →
      (st.process_frame true (.detected lm handed) (.exc msg) ts).2 =
        some [("sign", .jnull), ("confidence", .jnum 0), ("timestamp", .jstr ts),
              ("error", .jstr msg)]) ∧
    (∀ r, (st.process_frame dec ext inf ts).2 = some r →
      r.map Prod.fst = ["sign", "confidence", "timestamp", "inference_time_ms",
        "handedness", "all_predictions", "landmarks_detected"] ∨
      r.map Prod.fst = ["sign", "confidence", "timestamp", "error"]) := by
  refine ⟨rfl, fun msg => rfl, ?_, ?_⟩
  · intro msg lm handed hready
    simp [StreamingRecognitionService.process_frame, hready,
      StreamingRecognitionService.run_inference]
  · intro r hr
    cases dec with
    | false => simp [StreamingRecognitionService.process_frame] at hr
    | true =>
      cases ext with
      | raised msg => simp [StreamingRecognitionService.process_frame] at hr
      | no_detection =>
        cases hb : (st.buffer.add_frame none).2 <;>
          rw [StreamingRecognitionService.process_frame] at hr <;>
          simp [hb] at hr
        cases inf with
        | ok preds t =>
          left
          rw [← hr]
          rfl
        | exc msg =>
          right
          rw [← hr]
          rfl
      | detected lm handed =>
        cases hb : (st.buffer.add_frame (some lm)).2 <;>
          rw [StreamingRecognitionService.process_frame] at hr <;>
          simp [hb] at hr
        cases inf with
        | ok preds t =>
          left
          rw [← hr]
          rfl
        | exc msg =>
          right
          rw [← hr]
          rfl

/-- Witness for C10: with `window_size = stride = 1` the first frame already
makes the window ready, and a raising backend yields the error-shaped result
rather than an exception. -/
theorem c10_process_frame_total_witness :
    (((StreamingRecognitionService.init 1 1 30 0 true).buffer.add_frame
        (some zeroFrame)).2 = true) ∧
    (((StreamingRecognitionService.init 1 1 30 0 true).process_frame true
        (.detected zeroFrame "Right") (.exc "boom") "ts").2 =
      some [("sign", .jnull), ("confidence", .jnum 0), ("timestamp", .jstr "ts"),
            ("error", .jstr "boom")]) :=
  ⟨by decide,
   (c10_process_frame_total (StreamingRecognitionService.init 1 1 30 0 true) true
      (.detected zeroFrame "Right") (.exc "boom") "ts").2.2.1 "boom" zeroFrame
     "Right" (by decide)⟩

end SilentTalk
